import Mathlib

/-!
Verification of the MCP HTTP session/transport layer of the ui-agent
repository.  The embedded code is `startHttpServer` and its helpers in
`src/unnamed/part_005` (the mcp-server entry point plus `utils.ts`), and the
tool handlers it registers (`src/mcp-server/src/tools/project.ts` and the
code-tool modules).  JavaScript `Map<string, T>` values are embedded as
association lists whose keys the operations keep unique; transport object
identity is embedded as a `Nat` allocated from a counter; the random UUID
drawn by `randomUUID()` is a parameter of the model.
-/

namespace UiAgent

/-- A JavaScript `Map` over string keys, as an association list. -/
abbrev JsMap (V : Type) := List (String × V)

/-- `Map.prototype.get`: the value stored under the first (only) occurrence of
the key, if any. -/
def mapGet {V : Type} (m : JsMap V) (k : String) : Option V :=
  match m with
  | [] => none
  | (k₁, v₁) :: rest => if k₁ = k then some v₁ else mapGet rest k

/-- `Map.prototype.has`. -/
def mapHas {V : Type} (m : JsMap V) (k : String) : Bool :=
  (mapGet m k).isSome

/-- `Map.prototype.set`: replace the entry under `k` if present, else append. -/
def mapSet {V : Type} (m : JsMap V) (k : String) (v : V) : JsMap V :=
  match m with
  | [] => [(k, v)]
  | (k₁, v₁) :: rest => if k₁ = k then (k, v) :: rest else (k₁, v₁) :: mapSet rest k v

/-- `Map.prototype.delete`: remove the entry under `k` if present. -/
def mapDelete {V : Type} (m : JsMap V) (k : String) : JsMap V :=
  match m with
  | [] => []
  | (k₁, v₁) :: rest => if k₁ = k then rest else (k₁, v₁) :: mapDelete rest k

theorem mapGet_eq_none_of_not_mem {V : Type} (m : JsMap V) (k : String)
    (h : k ∉ m.map Prod.fst) : mapGet m k = none := by
  induction m with
  | nil => rfl
  | cons hd tl ih =>
    obtain ⟨k₁, v₁⟩ := hd
    simp only [List.map_cons, List.mem_cons, not_or] at h
    simp only [mapGet]
    rw [if_neg (fun he => h.1 he.symm)]
    exact ih h.2

theorem mapGet_mapSet_self {V : Type} (m : JsMap V) (k : String) (v : V) :
    mapGet (mapSet m k v) k = some v := by
  induction m with
  | nil => simp [mapSet, mapGet]
  | cons hd tl ih =>
    obtain ⟨k₁, v₁⟩ := hd
    by_cases hk : k₁ = k
    · simp [mapSet, mapGet, hk]
    · simp only [mapSet, if_neg hk, mapGet]
      exact ih

theorem mem_keys_mapSet {V : Type} (m : JsMap V) (k a : String) (v : V) :
    a ∈ (mapSet m k v).map Prod.fst ↔ a = k ∨ a ∈ m.map Prod.fst := by
  induction m with
  | nil => simp [mapSet]
  | cons hd tl ih =>
    obtain ⟨k₁, v₁⟩ := hd
    by_cases hk : k₁ = k
    · subst hk
      simp [mapSet]
    · simp only [mapSet, if_neg hk, List.map_cons, List.mem_cons, ih]
      tauto

theorem keys_mapSet_nodup {V : Type} (m : JsMap V) (k : String) (v : V)
    (h : (m.map Prod.fst).Nodup) : ((mapSet m k v).map Prod.fst).Nodup := by
  induction m with
  | nil => simp [mapSet]
  | cons hd tl ih =>
    obtain ⟨k₁, v₁⟩ := hd
    simp only [List.map_cons, List.nodup_cons] at h
    by_cases hk : k₁ = k
    · subst hk
      simp only [mapSet, if_pos rfl, eq_self_iff_true, if_true, List.map_cons,
        List.nodup_cons]
      exact ⟨h.1, h.2⟩
    · simp only [mapSet, if_neg hk, List.map_cons, List.nodup_cons]
      refine ⟨fun hmem => ?_, ih h.2⟩
      rcases (mem_keys_mapSet tl k k₁ v).mp hmem with he | hmem2
      · exact hk he
      · exact h.1 hmem2

theorem keys_mapDelete_sublist {V : Type} (m : JsMap V) (k : String) :
    ((mapDelete m k).map Prod.fst).Sublist (m.map Prod.fst) := by
  induction m with
  | nil => simp [mapDelete]
  | cons hd tl ih =>
    obtain ⟨k₁, v₁⟩ := hd
    by_cases hk : k₁ = k
    · simp only [mapDelete, if_pos hk, List.map_cons]
      exact (List.Sublist.refl _).cons k₁
    · simp only [mapDelete, if_neg hk, List.map_cons]
      exact ih.cons₂ k₁

theorem keys_mapDelete_nodup {V : Type} (m : JsMap V) (k : String)
    (h : (m.map Prod.fst).Nodup) : ((mapDelete m k).map Prod.fst).Nodup :=
  (keys_mapDelete_sublist m k).nodup h

theorem mapGet_mapDelete_self {V : Type} (m : JsMap V) (k : String)
    (h : (m.map Prod.fst).Nodup) : mapGet (mapDelete m k) k = none := by
  induction m with
  | nil => rfl
  | cons hd tl ih =>
    obtain ⟨k₁, v₁⟩ := hd
    simp only [List.map_cons, List.nodup_cons] at h
    by_cases hk : k₁ = k
    · subst hk
      simp only [mapDelete, if_pos rfl]
      exact mapGet_eq_none_of_not_mem tl k₁ h.1
    · simp only [mapDelete, if_neg hk, mapGet]
      exact ih h.2

theorem mapHas_false_iff {V : Type} (m : JsMap V) (k : String) :
    mapHas m k = false ↔ mapGet m k = none := by
  cases h : mapGet m k <;> simp [mapHas, h]

/-- `SERVER_NAME` constant (part_005, line 13). -/
def SERVER_NAME : String := "lovable-mcp-agent"

/-- `SERVER_VERSION` constant (part_005, line 14). -/
def SERVER_VERSION : String := "1.0.0"

/-- Tool names registered by `registerProjectTools`
(src/mcp-server/src/tools/project.ts, lines 8-229), in registration order. -/
def projectToolNames : List String :=
  ["create_project", "list_projects", "get_project_info", "archive_project"]

/-- Tool names registered by `registerCodeTools` (src/unnamed/part_001 and
part_002: both variants of the code-tools module register the same five
names, in the same order). -/
def codeToolNames : List String :=
  ["edit_file", "add_component", "get_file", "list_files", "install_dependency"]

/-- Tool names registered by `registerDeployTools`
(src/mcp-server/src/tools/project.ts, lines 238-514), in registration order. -/
def deployToolNames : List String :=
  ["deploy_project", "get_deploy_status", "list_deployments",
   "rollback_deployment", "get_deploy_logs"]

/-- `createMcpServer` (part_005, lines 19-33): builds a fresh `McpServer` and
synchronously registers every tool category on it.  Embedded as the sequence
of `registerTool` calls one invocation performs, in order. -/
def createMcpServer : List String :=
  projectToolNames ++ codeToolNames ++ deployToolNames

/-- The mutable state of one `startHttpServer` process (part_005, lines
49-130): the `sessions` map from session id to transport, plus an allocator
naming the distinct `StreamableHTTPServerTransport` objects created so far
(a transport object is identified by the `Nat` it was allocated). -/
structure ServerState where
  sessions : JsMap Nat
  nextTid : Nat
  deriving Repr, DecidableEq

/-- The state right after `startHttpServer` sets up: `sessions` is a fresh
empty map (part_005, line 54) and no transport object exists yet. -/
def initialState : ServerState := { sessions := [], nextTid := 0 }

/-- Which transport serves a POST /mcp request (part_005, lines 67-100):
either an existing transport found in the session table is reused, or a
brand-new transport object is created (and a fresh `McpServer` is built and
connected to it). -/
inductive PostOutcome where
  | reused (tid : Nat)
  | created (tid : Nat)
  deriving Repr, DecidableEq

/-- The POST /mcp handler (part_005, lines 67-100).  `sessionId` is the
`mcp-session-id` header.  If the header is present and `sessions.has` it,
the stored transport is reused and nothing changes; otherwise a new
transport object is allocated (the handler itself does not insert it into
the table — insertion happens later in `onsessioninitialized`). -/
def postMcp (st : ServerState) (sessionId : Option String) : PostOutcome × ServerState :=
  match sessionId with
  | some sid =>
    if mapHas st.sessions sid then
      (PostOutcome.reused ((mapGet st.sessions sid).getD 0), st)
    else
      (PostOutcome.created st.nextTid, { st with nextTid := st.nextTid + 1 })
  | none => (PostOutcome.created st.nextTid, { st with nextTid := st.nextTid + 1 })

/-- Number of `registerTool` calls performed while one POST /mcp request is
served: the new-session branch calls `createMcpServer()` (part_005, line 95),
which registers the full tool set; the reuse branch registers nothing. -/
def registrationsDuringPost (o : PostOutcome) : Nat :=
  match o with
  | PostOutcome.reused _ => 0
  | PostOutcome.created _ => createMcpServer.length

/-- `startHttpServer` performs no tool registration before `app.listen`
(part_005, lines 49-130): `createMcpServer` is referenced only inside the
POST handler, so zero `registerTool` calls happen at HTTP-server startup. -/
def registrationsBeforeListen : Nat := 0

/-- `sessionIdGenerator` (part_005, line 78): a single call to
`randomUUID()`, whose draw is the parameter `uuid`; the draw is used as the
session id as-is.  The generator receives no session table and performs no
collision check. -/
def sessionIdGenerator (uuid : String) : String := uuid

/-- The `onsessioninitialized` callback (part_005, lines 79-82): when the SDK
reports that transport `tid` completed initialization under the generated
`id`, the transport is inserted into the table under that id. -/
def onsessioninitialized (st : ServerState) (id : String) (tid : Nat) : ServerState :=
  { st with sessions := mapSet st.sessions id tid }

/-- The `onsessionclosed` callback (part_005, lines 83-86): the id is removed
from the table. -/
def onsessionclosed (st : ServerState) (id : String) : ServerState :=
  { st with sessions := mapDelete st.sessions id }

/-- The `transport.onclose` handler (part_005, lines 89-93): if the transport
carries a session id, that id is removed from the table. -/
def onclose (st : ServerState) (sid : Option String) : ServerState :=
  match sid with
  | some id => { st with sessions := mapDelete st.sessions id }
  | none => st

/-- A response the GET or DELETE /mcp handler produces itself: either the
request is delegated to `transport.handleRequest` (part_005, lines 108 and
120), or the handler answers with status 400 and body `{error: 'Invalid
session'}`. -/
inductive McpResponse where
  | handledBy (tid : Nat)
  | invalidSession
  deriving Repr, DecidableEq

/-- The HTTP status code the handler sets itself (`res.status(400)`); `none`
when the response is delegated to the transport. -/
def McpResponse.status : McpResponse → Option Nat
  | .handledBy _ => none
  | .invalidSession => some 400

/-- The `error` field of the JSON body the handler writes itself; `none` when
the response is delegated to the transport. -/
def McpResponse.errorBody : McpResponse → Option String
  | .handledBy _ => none
  | .invalidSession => some "Invalid session"

/-- The GET /mcp handler (part_005, lines 103-112): look the header up in the
table; a hit is delegated to the stored transport, a miss (including an
absent header) is answered `400 {error: 'Invalid session'}`. -/
def getMcp (st : ServerState) (sessionId : Option String) : McpResponse × ServerState :=
  match sessionId.bind (mapGet st.sessions) with
  | some tid => (McpResponse.handledBy tid, st)
  | none => (McpResponse.invalidSession, st)

/-- The DELETE /mcp handler (part_005, lines 115-124): same lookup shape as
the GET handler. -/
def deleteMcp (st : ServerState) (sessionId : Option String) : McpResponse × ServerState :=
  match sessionId.bind (mapGet st.sessions) with
  | some tid => (McpResponse.handledBy tid, st)
  | none => (McpResponse.invalidSession, st)

/-- The JSON body of the /health endpoint. -/
structure HealthBody where
  status : String
  server : String
  version : String
  activeSessions : Nat
  deriving Repr, DecidableEq

/-- The /health handler (part_005, lines 57-64).  `sessions.size` of the
JavaScript `Map` is the number of entries, i.e. the length of the embedded
association list (whose keys stay unique, see `run_keys_nodup`). -/
def healthMcp (st : ServerState) : HealthBody :=
  { status := "healthy", server := SERVER_NAME, version := SERVER_VERSION,
    activeSessions := st.sessions.length }

/-- The events that touch the server state over the process lifetime: a
request served by one of the three /mcp handlers, the SDK firing
`onsessioninitialized` for transport `tid` with UUID draw `uuid`, the SDK
firing `onsessionclosed`, and a transport firing its `onclose`. -/
inductive Ev where
  | post (sessionId : Option String)
  | get (sessionId : Option String)
  | delete (sessionId : Option String)
  | initialized (uuid : String) (tid : Nat)
  | sessionClosed (id : String)
  | transportClosed (sid : Option String)

/-- One event applied to the server state. -/
def step (st : ServerState) : Ev → ServerState
  | Ev.post sid => (postMcp st sid).2
  | Ev.get sid => (getMcp st sid).2
  | Ev.delete sid => (deleteMcp st sid).2
  | Ev.initialized uuid tid => onsessioninitialized st (sessionIdGenerator uuid) tid
  | Ev.sessionClosed id => onsessionclosed st id
  | Ev.transportClosed sid => onclose st sid

/-- The server state after a sequence of events from startup. -/
def run (evs : List Ev) : ServerState := evs.foldl step initialState

/-- A POST /mcp request never mutates the session table itself: the reuse
branch leaves the state alone and the create branch only allocates a
transport object (insertion is deferred to `onsessioninitialized`). -/
theorem postMcp_sessions (st : ServerState) (sid : Option String) :
    ((postMcp st sid).2).sessions = st.sessions := by
  cases sid with
  | none => rfl
  | some s =>
    simp only [postMcp]
    by_cases h : mapHas st.sessions s = true <;> simp [h]

theorem getMcp_state (st : ServerState) (sid : Option String) :
    (getMcp st sid).2 = st := by
  simp only [getMcp]
  cases sid.bind (mapGet st.sessions) <;> rfl

theorem deleteMcp_state (st : ServerState) (sid : Option String) :
    (deleteMcp st sid).2 = st := by
  simp only [deleteMcp]
  cases sid.bind (mapGet st.sessions) <;> rfl

theorem step_keys_nodup (st : ServerState) (e : Ev)
    (h : (st.sessions.map Prod.fst).Nodup) :
    (((step st e).sessions).map Prod.fst).Nodup := by
  cases e with
  | post sid => rw [step, postMcp_sessions]; exact h
  | get sid => rw [step, getMcp_state]; exact h
  | delete sid => rw [step, deleteMcp_state]; exact h
  | initialized uuid tid => exact keys_mapSet_nodup _ _ _ h
  | sessionClosed id => exact keys_mapDelete_nodup _ _ h
  | transportClosed sid =>
    cases sid with
    | none => exact h
    | some id => exact keys_mapDelete_nodup _ _ h

/-- Along every evolution of the server the session table keeps its keys
unique, so the length of the embedded table equals `Map.size`. -/
theorem run_keys_nodup (evs : List Ev) :
    (((run evs).sessions).map Prod.fst).Nodup := by
  suffices h : ∀ st : ServerState, (st.sessions.map Prod.fst).Nodup →
      (((evs.foldl step st).sessions).map Prod.fst).Nodup by
    exact h initialState (by simp [initialState])
  induction evs with
  | nil => intro st hst; exact hst
  | cons e rest ih =>
    intro st hst
    exact ih (step st e) (step_keys_nodup st e hst)

/-- Serve `n + 1` successive POST /mcp requests all carrying the same session
id, returning the last outcome and the final server state. -/
def postSeq (st : ServerState) (id : String) : Nat → PostOutcome × ServerState
  | 0 => postMcp st (some id)
  | n + 1 => postMcp (postSeq st id n).2 (some id)

/-- A value thrown by JavaScript code: either an `Error` instance carrying a
message, or some other value. -/
inductive JsError where
  | errorObj (msg : String)
  | nonError
  deriving Repr, DecidableEq

/-- The message the handlers display for a caught value:
`error instanceof Error ? error.message : 'Unknown error'`. -/
def JsError.displayMessage : JsError → String
  | .errorObj msg => msg
  | .nonError => "Unknown error"

/-- Input of the `create_project` tool after schema validation
(src/mcp-server/src/tools/project.ts, lines 17-22). -/
structure CreateProjectInput where
  name : String
  description : Option String
  template : String
  features : List String
  deriving Repr, DecidableEq

/-- The record the Lovable API client resolves with on success. -/
structure CreateProjectApiResult where
  id : String
  deriving Repr, DecidableEq

/-- Structured output envelope of the `create_project` tool
(src/mcp-server/src/tools/project.ts, lines 23-28). -/
structure CreateProjectOutput where
  success : Bool
  projectId : Option String
  projectUrl : Option String
  message : String
  deriving Repr, DecidableEq

/-- The `create_project` handler (src/mcp-server/src/tools/project.ts, lines
30-59).  The awaited `client.createProject` call either resolves
(`Except.ok`) or throws (`Except.error`); the handler catches the throw and
returns a `success := false` envelope.  The codomain is the plain envelope
type: no exception leaves the handler. -/
def create_project_handler (input : CreateProjectInput)
    (apiResult : Except JsError CreateProjectApiResult) : CreateProjectOutput :=
  match apiResult with
  | Except.ok r =>
    { success := true
      projectId := some r.id
      projectUrl := some ("https://lovable.dev/projects/" ++ r.id)
      message := "Project \"" ++ input.name ++ "\" created successfully!" }
  | Except.error e =>
    { success := false
      projectId := none
      projectUrl := none
      message := "Failed to create project: " ++ e.displayMessage }

/-- Serving one `create_project` invocation inside a session: the handler is
run on the outcome of the API call, and the server session table is not
touched by tool execution. -/
def dispatchCreateProject (st : ServerState) (input : CreateProjectInput)
    (apiResult : Except JsError CreateProjectApiResult) :
    CreateProjectOutput × ServerState :=
  (create_project_handler input apiResult, st)

/-- One run of a spawned shell command: how long the child would run and what
it would produce. -/
structure ProcessRun where
  durationMs : Nat
  failed : Bool
  stdout : String
  stderr : String
  deriving Repr, DecidableEq

/-- Node `child_process.exec` with the `timeout` option, as `execCommand`
invokes it (part_005, lines 181-183): the callback receives an error when the
run exceeds `timeoutMs` (the child is killed) or when the command itself
fails; otherwise the error argument is null. -/
def execCallbackHasError (timeoutMs : Nat) (run : ProcessRun) : Bool :=
  decide (timeoutMs < run.durationMs) || run.failed

/-- Outcome of the promise returned by `execCommand`. -/
inductive ExecResult where
  | ok (stdout stderr : String)
  | rejected (message : String)
  deriving Repr, DecidableEq

/-- `execCommand` (part_005, lines 175-196): runs `command` under `exec` with
`timeout: timeoutMs` (the source defaults `timeoutMs` to 60000 when the
caller omits it); on a callback error the promise is rejected with
`Command failed: <command>\n<stderr or error.message>` (the stderr string is
used when non-empty, matching the `stderr || error.message` fallback),
otherwise it resolves with the captured stdout and stderr.  `errMessage` is
the `error.message` node supplies for the failure. -/
def execCommand (command : String) (timeoutMs : Nat) (run : ProcessRun)
    (errMessage : String) : ExecResult :=
  if execCallbackHasError timeoutMs run then
    ExecResult.rejected ("Command failed: " ++ command ++ "\n" ++
      (if run.stderr = "" then errMessage else run.stderr))
  else
    ExecResult.ok run.stdout run.stderr

/-- Build command chosen per detected package manager
(src/mcp-server/src/tools/project.ts, lines 563-565). -/
def buildCommand (pm : String) : String :=
  if pm = "pnpm" then "pnpm build"
  else if pm = "yarn" then "yarn build"
  else "npm run build"

/-- Output directories probed after a build
(src/mcp-server/src/tools/project.ts, line 573). -/
def buildOutputDirCandidates : List String := ["dist", "build", ".next", "out"]

/-- Structured output envelope of the `build_project` tool
(src/mcp-server/src/tools/project.ts, lines 536-541). -/
structure BuildOutput where
  success : Bool
  outputDir : Option String
  buildOutput : Option String
  message : String
  deriving Repr, DecidableEq

/-- The `build_project` handler (src/mcp-server/src/tools/project.ts, lines
543-601).  `pm` is the detected package manager, `hasBuildScript` whether
`package.json` declares a `build` script, `run` the behavior of the spawned
build command, `errMessage` the node error message on failure, and
`dirExists` which candidate output directories exist afterwards.  The
handler calls `execCommand` with an explicit 120000 ms timeout; a rejection
(timeout or failed build) is caught by the surrounding try/catch and turned
into a `success := false` envelope.  The success message formats the elapsed
milliseconds as seconds with one decimal, matching `toFixed(1)`. -/
def build_project_handler (pm : String) (hasBuildScript : Bool)
    (run : ProcessRun) (errMessage : String) (dirExists : String → Bool) :
    BuildOutput :=
  if !hasBuildScript then
    { success := false, outputDir := none, buildOutput := none,
      message := "No \"build\" script found in package.json" }
  else
    match execCommand (buildCommand pm) 120000 run errMessage with
    | ExecResult.ok stdout stderr =>
      let outDir := buildOutputDirCandidates.find? dirExists
      let tenths := (run.durationMs + 50) / 100
      { success := true
        outputDir := outDir
        buildOutput := some ((stdout ++ stderr).take 2000)
        message := "Build completed in " ++ toString (tenths / 10) ++ "." ++
          toString (tenths % 10) ++ "s" ++
          (match outDir with
            | some d => " → " ++ d ++ "/"
            | none => "") }
    | ExecResult.rejected msg =>
      { success := false, outputDir := none, buildOutput := none,
        message := "Build failed: " ++ msg }

/-- Serving one `build_project` invocation inside a session: the handler is
run on the environment, and the server session table is not touched by tool
execution — the failure stays at handler level. -/
def dispatchBuildProject (st : ServerState) (pm : String)
    (hasBuildScript : Bool) (run : ProcessRun) (errMessage : String)
    (dirExists : String → Bool) : BuildOutput × ServerState :=
  (build_project_handler pm hasBuildScript run errMessage dirExists, st)

/-- Claim C1, counterexample: a POST /mcp carrying the session id
"ghost-session", which is absent from the (empty) live table, does not fail
with any error — the handler creates a brand-new transport and serves the
request with it, so the manager does create a new session when the client
supplied an unknown id, contrary to the claim. -/
theorem c1_counterexample_post_unknown_id_creates :
    mapGet initialState.sessions "ghost-session" = none ∧
    (postMcp initialState (some "ghost-session")).1 = PostOutcome.created 0 :=
  ⟨rfl, rfl⟩

/-- Claim C1, amended: a session id absent from the live table is rejected
with `400 {error: 'Invalid session'}` on GET and DELETE /mcp, but a POST /mcp
with such an id is not rejected: it takes the same new-session branch as an
id-less request, creating a brand-new transport, and the supplied id itself
is not inserted into the table by the handler — so a closed id never maps
back to a live session. -/
theorem c1_amended_unknown_id_resolution (st : ServerState) (sid : String)
    (h : mapGet st.sessions sid = none) :
    getMcp st (some sid) = (McpResponse.invalidSession, st) ∧
    deleteMcp st (some sid) = (McpResponse.invalidSession, st) ∧
    postMcp st (some sid) =
      (PostOutcome.created st.nextTid, { st with nextTid := st.nextTid + 1 }) ∧
    mapGet ((postMcp st (some sid)).2).sessions sid = none := by
  refine ⟨?_, ?_, ?_, ?_⟩
  · unfold getMcp
    rw [show (some sid).bind (mapGet st.sessions) = none from h]
  · unfold deleteMcp
    rw [show (some sid).bind (mapGet st.sessions) = none from h]
  · simp [postMcp, mapHas, h]
  · rw [postMcp_sessions]
    exact h

/-- Witness for the amended C1 at a concrete state: with only "live" in the
table, resolving "ghost" by POST creates transport 6 and leaves "ghost"
absent. -/
theorem c1_amended_unknown_id_resolution_witness :
    mapGet ({ sessions := [("live", 5)], nextTid := 6 } : ServerState).sessions
      "ghost" = none ∧
    postMcp { sessions := [("live", 5)], nextTid := 6 } (some "ghost") =
      (PostOutcome.created 6, { sessions := [("live", 5)], nextTid := 7 }) :=
  ⟨by decide,
   (c1_amended_unknown_id_resolution
     { sessions := [("live", 5)], nextTid := 6 } "ghost" (by decide)).2.2.1⟩

/-- Claim C2, counterexample: in HTTP mode no tool registration happens at
startup, the first POST /mcp (a request being served) performs the 14
`registerTool` calls of `createMcpServer`, and a later new-session POST —
after the first request has been served — performs them again.  This refutes
"built exactly once at startup ... no registration after the first request
has been served". -/
theorem c2_counterexample_registration_during_requests :
    registrationsBeforeListen = 0 ∧
    registrationsDuringPost (postMcp initialState none).1 = 14 ∧
    0 < registrationsDuringPost (postMcp (postMcp initialState none).2 none).1 :=
  ⟨rfl, rfl, by decide⟩

/-- Claim C2, amended: the registered tool set is fixed (the same 14 names in
the same order per `McpServer`), but there is no single process-wide table
built at startup in HTTP mode: a fresh server with the full tool set is
registered inside the POST handler for every new session — i.e. during
request service — while a reuse POST registers nothing. -/
theorem c2_amended_per_session_registration (st : ServerState) (id : String) :
    registrationsDuringPost (postMcp st none).1 = createMcpServer.length ∧
    (mapHas st.sessions id = true →
      registrationsDuringPost (postMcp st (some id)).1 = 0) ∧
    (mapHas st.sessions id = false →
      registrationsDuringPost (postMcp st (some id)).1 = createMcpServer.length) ∧
    createMcpServer.length = 14 := by
  refine ⟨rfl, ?_, ?_, by decide⟩
  · intro h
    simp [postMcp, h, registrationsDuringPost]
  · intro h
    simp [postMcp, h, registrationsDuringPost]

/-- Witness for the amended C2 at a concrete state: with session "a" live, a
reuse POST registers no tools while a fresh-session POST registers 14. -/
theorem c2_amended_per_session_registration_witness :
    mapHas ({ sessions := [("a", 1)], nextTid := 2 } : ServerState).sessions
      "a" = true ∧
    registrationsDuringPost
      (postMcp { sessions := [("a", 1)], nextTid := 2 } (some "a")).1 = 0 :=
  ⟨by decide,
   (c2_amended_per_session_registration
     { sessions := [("a", 1)], nextTid := 2 } "a").2.1 (by decide)⟩

/-- Claim C3, counterexample: serving a no-id POST creates transport 0, yet
the session table afterwards is still empty — the newly created session is
not inserted into the table in a PENDING state before the transport
initializes, refuting the claimed PENDING step. -/
theorem c3_counterexample_no_pending_insertion :
    (postMcp initialState none).1 = PostOutcome.created 0 ∧
    ((postMcp initialState none).2).sessions = [] :=
  ⟨rfl, rfl⟩

/-- Claim C3, amended: the table has no state field and no PENDING stage — a
POST never mutates the table; the entry appears exactly when the transport
signals successful initialization (`onsessioninitialized` inserts the
generated id), and it is removed when the transport signals closure
(`onsessionclosed` or `onclose`), regardless of what the table held. -/
theorem c3_amended_lifecycle (st : ServerState) (uuid : String) (tid : Nat)
    (hnd : (st.sessions.map Prod.fst).Nodup) :
    (∀ sid, ((postMcp st sid).2).sessions = st.sessions) ∧
    mapGet (onsessioninitialized st (sessionIdGenerator uuid) tid).sessions
      uuid = some tid ∧
    mapGet (onsessionclosed st uuid).sessions uuid = none ∧
    mapGet (onclose st (some uuid)).sessions uuid = none := by
  refine ⟨postMcp_sessions st, ?_, ?_, ?_⟩
  · exact mapGet_mapSet_self _ _ _
  · exact mapGet_mapDelete_self _ _ hnd
  · exact mapGet_mapDelete_self _ _ hnd

/-- Witness for the amended C3 at a concrete state: initializing id "b" for
transport 9 inserts it; a closure signal for "a" removes it. -/
theorem c3_amended_lifecycle_witness :
    mapGet (onsessioninitialized { sessions := [("a", 3)], nextTid := 4 }
      (sessionIdGenerator "b") 9).sessions "b" = some 9 ∧
    mapGet (onsessionclosed { sessions := [("a", 3)], nextTid := 4 }
      "a").sessions "a" = none :=
  ⟨(c3_amended_lifecycle { sessions := [("a", 3)], nextTid := 4 } "b" 9
      (by decide)).2.1,
   (c3_amended_lifecycle { sessions := [("a", 3)], nextTid := 4 } "a" 0
      (by decide)).2.2.1⟩

/-- Claim C4, counterexample: with session id "a" live, a `randomUUID` draw
equal to "a" is used as the new session id unchanged — the generator consults
no table and nothing is regenerated — and initialization then overwrites the
live entry (transport 0 is replaced by transport 1 under "a").  So the fresh
id can equal a currently-live id, refuting the claimed collision check. -/
theorem c4_counterexample_no_collision_check :
    sessionIdGenerator "a" = "a" ∧
    mapHas ({ sessions := [("a", 0)], nextTid := 1 } : ServerState).sessions
      (sessionIdGenerator "a") = true ∧
    mapGet (onsessioninitialized { sessions := [("a", 0)], nextTid := 1 }
      (sessionIdGenerator "a") 1).sessions "a" = some 1 :=
  ⟨rfl, by decide, by decide⟩

/-- Claim C4, amended: every request with no session id does create a distinct
new transport (successive creations get distinct object identities), but the
session id assigned at initialization is a single `randomUUID` draw used
as-is: there is no collision check against the live table and no
regeneration, and a colliding draw would overwrite the live entry. -/
theorem c4_amended_fresh_session_unchecked_id (st : ServerState)
    (uuid : String) (tid : Nat) :
    (postMcp st none).1 = PostOutcome.created st.nextTid ∧
    (postMcp ((postMcp st none).2) none).1 =
      PostOutcome.created (st.nextTid + 1) ∧
    sessionIdGenerator uuid = uuid ∧
    mapGet (onsessioninitialized st (sessionIdGenerator uuid) tid).sessions
      uuid = some tid :=
  ⟨rfl, rfl, rfl, mapGet_mapSet_self _ _ _⟩

/-- Claim C5 (confirmed): while a session id is live in the table, every POST
/mcp carrying that id — any number of times in sequence — returns the very
same stored transport object and leaves the server state unchanged; no
duplicate transport is ever created for an existing id. -/
theorem c5_resolve_same_id_same_transport (st : ServerState) (id : String)
    (tid : Nat) (h : mapGet st.sessions id = some tid) (n : Nat) :
    postSeq st id n = (PostOutcome.reused tid, st) := by
  induction n with
  | zero => simp [postSeq, postMcp, mapHas, h]
  | succ n ih =>
    rw [postSeq, ih]
    simp [postMcp, mapHas, h]

/-- Witness for C5 at a concrete state: three successive POSTs with "s1" all
reuse transport 7 and leave the state unchanged. -/
theorem c5_resolve_same_id_same_transport_witness :
    mapGet ({ sessions := [("s1", 7)], nextTid := 8 } : ServerState).sessions
      "s1" = some 7 ∧
    postSeq { sessions := [("s1", 7)], nextTid := 8 } "s1" 2 =
      (PostOutcome.reused 7, { sessions := [("s1", 7)], nextTid := 8 }) :=
  ⟨by decide,
   c5_resolve_same_id_same_transport { sessions := [("s1", 7)], nextTid := 8 }
     "s1" 7 (by decide) 2⟩

/-- Claim C6, counterexample: a DELETE /mcp carrying the unknown session id
"gone-session" is answered by the handler itself with status 400 and body
`{error: 'Invalid session'}` — an error response, not the silent no-op the
claim states. -/
theorem c6_counterexample_delete_unknown_is_error :
    deleteMcp initialState (some "gone-session") =
      (McpResponse.invalidSession, initialState) ∧
    McpResponse.status (deleteMcp initialState (some "gone-session")).1 =
      some 400 ∧
    McpResponse.errorBody (deleteMcp initialState (some "gone-session")).1 =
      some "Invalid session" :=
  ⟨rfl, rfl, rfl⟩

/-- Claim C6, amended: explicit termination (DELETE /mcp) with an unknown or
absent session id is rejected with HTTP 400 `{error: 'Invalid session'}` and
leaves the session table unchanged; it is an error response, not a silent
successful no-op. -/
theorem c6_amended_delete_unknown_rejected (st : ServerState)
    (sid : Option String) (h : sid.bind (mapGet st.sessions) = none) :
    deleteMcp st sid = (McpResponse.invalidSession, st) ∧
    McpResponse.status (deleteMcp st sid).1 = some 400 ∧
    McpResponse.errorBody (deleteMcp st sid).1 = some "Invalid session" := by
  have hd : deleteMcp st sid = (McpResponse.invalidSession, st) := by
    unfold deleteMcp
    rw [h]
  exact ⟨hd, by rw [hd]; rfl, by rw [hd]; rfl⟩

/-- Witness for the amended C6 at a concrete state: deleting the unknown id
"zombie" while "a" is live yields the 400 rejection. -/
theorem c6_amended_delete_unknown_rejected_witness :
    (some "zombie").bind
      (mapGet ({ sessions := [("a", 1)], nextTid := 2 } : ServerState).sessions)
      = none ∧
    deleteMcp { sessions := [("a", 1)], nextTid := 2 } (some "zombie") =
      (McpResponse.invalidSession, { sessions := [("a", 1)], nextTid := 2 }) :=
  ⟨by decide,
   (c6_amended_delete_unknown_rejected { sessions := [("a", 1)], nextTid := 2 }
     (some "zombie") (by decide)).1⟩

/-- Claim C7 (confirmed): when the `create_project` handler's API call throws,
the exception is caught inside the handler and reported as a structured
`success := false` envelope carrying the failure message; the handler's
codomain is the plain envelope type, so nothing propagates, the session
table is untouched by the tool call, and a session that was live before the
failing call is still resolved to its same transport afterwards. -/
theorem c7_handler_exception_recovered (st : ServerState)
    (input : CreateProjectInput) (e : JsError) (id : String) (tid : Nat)
    (h : mapGet st.sessions id = some tid) :
    (dispatchCreateProject st input (Except.error e)).1.success = false ∧
    (dispatchCreateProject st input (Except.error e)).1.message =
      "Failed to create project: " ++ e.displayMessage ∧
    (dispatchCreateProject st input (Except.error e)).2 = st ∧
    postMcp (dispatchCreateProject st input (Except.error e)).2 (some id) =
      (PostOutcome.reused tid, st) := by
  refine ⟨rfl, rfl, rfl, ?_⟩
  simp [dispatchCreateProject, postMcp, mapHas, h]

/-- Witness for C7 at a concrete state: a throwing API call yields the
failure envelope and session "s" still resolves to transport 2. -/
theorem c7_handler_exception_recovered_witness :
    mapGet ({ sessions := [("s", 2)], nextTid := 3 } : ServerState).sessions
      "s" = some 2 ∧
    (dispatchCreateProject { sessions := [("s", 2)], nextTid := 3 }
      ⟨"My App", none, "blank", []⟩
      (Except.error (JsError.errorObj "API connection refused"))).1.message =
      "Failed to create project: " ++ "API connection refused" :=
  ⟨by decide,
   (c7_handler_exception_recovered { sessions := [("s", 2)], nextTid := 3 }
     ⟨"My App", none, "blank", []⟩
     (JsError.errorObj "API connection refused") "s" 2 (by decide)).2.1⟩

/-- Claim C8 (confirmed): the `build_project` handler runs the spawned build
command through `execCommand` with its own explicit 120000 ms timeout; a run
exceeding that bound makes `exec` report an error, `execCommand` reject, and
the handler's try/catch turn the rejection into a structured
`success := false` envelope — a handler-level failure that leaves the server
session table untouched rather than a transport-level one. -/
theorem c8_build_timeout_handler_failure (st : ServerState) (pm : String)
    (run : ProcessRun) (errMessage : String) (dirExists : String → Bool)
    (h : 120000 < run.durationMs) :
    (dispatchBuildProject st pm true run errMessage dirExists).1.success =
      false ∧
    (dispatchBuildProject st pm true run errMessage dirExists).1.message =
      "Build failed: " ++ ("Command failed: " ++ buildCommand pm ++ "\n" ++
        (if run.stderr = "" then errMessage else run.stderr)) ∧
    (dispatchBuildProject st pm true run errMessage dirExists).2 = st := by
  have hb : execCallbackHasError 120000 run = true := by
    simp [execCallbackHasError, h]
  refine ⟨?_, ?_, rfl⟩ <;>
    simp [dispatchBuildProject, build_project_handler, execCommand, hb]

/-- Witness for C8 at a concrete input: a 130000 ms build run under the
120000 ms timeout produces the failure envelope. -/
theorem c8_build_timeout_handler_failure_witness :
    (120000 : Nat) < 130000 ∧
    (dispatchBuildProject initialState "pnpm" true
      ⟨130000, false, "", ""⟩ "killed" (fun _ => false)).1.success = false :=
  ⟨by decide,
   (c8_build_timeout_handler_failure initialState "pnpm"
     ⟨130000, false, "", ""⟩ "killed" (fun _ => false) (by decide)).1⟩

/-- Claim C9 (confirmed): a GET /mcp whose `mcp-session-id` header is absent
or matches no table entry is answered with HTTP 400 and body
`{error: 'Invalid session'}`, leaving the session table unchanged — while a
POST in the same situation takes the new-session branch and provisions a new
transport. -/
theorem c9_get_unknown_session_rejected (st : ServerState)
    (sid : Option String) (h : sid.bind (mapGet st.sessions) = none) :
    getMcp st sid = (McpResponse.invalidSession, st) ∧
    McpResponse.status (getMcp st sid).1 = some 400 ∧
    McpResponse.errorBody (getMcp st sid).1 = some "Invalid session" ∧
    (postMcp st sid).1 = PostOutcome.created st.nextTid := by
  have hg : getMcp st sid = (McpResponse.invalidSession, st) := by
    unfold getMcp
    rw [h]
  refine ⟨hg, by rw [hg]; rfl, by rw [hg]; rfl, ?_⟩
  cases sid with
  | none => rfl
  | some id =>
    have h2 : mapGet st.sessions id = none := by simpa using h
    simp [postMcp, mapHas, h2]

/-- Witness for C9 at a concrete state: a GET with unknown id "nope" on a
fresh server is rejected with the 400 body while a POST would create
transport 0. -/
theorem c9_get_unknown_session_rejected_witness :
    (some "nope").bind (mapGet initialState.sessions) = none ∧
    getMcp initialState (some "nope") =
      (McpResponse.invalidSession, initialState) :=
  ⟨by decide,
   (c9_get_unknown_session_rejected initialState (some "nope") (by decide)).1⟩

/-- Claim C10 (confirmed): in every reachable server state — after any
sequence of requests, initializations and closures — the /health handler
answers status "healthy", the fixed server name and version, and an
`activeSessions` count equal to the number of entries of the session table;
the table's keys stay pairwise distinct along every run, so that count is
exactly the `Map.size` of the live table. -/
theorem c10_health_reports_live_session_count (evs : List Ev) :
    healthMcp (run evs) =
      { status := "healthy", server := SERVER_NAME, version := SERVER_VERSION,
        activeSessions := ((run evs).sessions).length } ∧
    (((run evs).sessions).map Prod.fst).Nodup :=
  ⟨rfl, run_keys_nodup evs⟩

end UiAgent
